import Mathlib

/-!
# Verification of the guided-interview session controller (frontend/app.js)

A shallow embedding of the state and event handlers of the guided-interview
frontend (`src/frontend/app.js`), together with theorems settling the frozen
claims about it.  Each definition mirrors one function of the source; the
source line numbers are given in the doc comments.
-/

namespace InterviewCoach

/-- The controller's state tag, `guidedState.mode` (app.js line 15):
`'setup' | 'active' | 'feedback' | 'complete'`, plus `'analyzing'`
which is assigned at line 442. -/
inductive GMode where
  | setup
  | active
  | analyzing
  | feedback
  | complete
deriving DecidableEq

/-- The module-level `guidedState` object (app.js lines 14-20).
`sessionResults` is a JavaScript array written at arbitrary indices
(`sessionResults[i] = data`), hence modelled as a list of `Option α`:
`none` is a hole / `undefined` slot, `some d` a stored analysis result.
The analysis payload itself is opaque to the controller, hence the
type parameter `α`. -/
structure GuidedState (α : Type) where
  mode : GMode
  questions : List String
  currentQuestionIndex : Nat
  jobDescription : String
  sessionResults : List (Option α)
deriving DecidableEq

/-- JavaScript array assignment `l[i] = v` on a sparse array: if `i` is in
range the slot is overwritten; otherwise the array is padded with holes
(`undefined`, modelled `none`) up to `i` and the value placed there. -/
def setSlot {α : Type} (l : List (Option α)) (i : Nat) (v : α) : List (Option α) :=
  if i < l.length then l.set i (some v)
  else l ++ List.replicate (i - l.length) none ++ [some v]

/-- Embedding of `startGuidedInterview` (app.js lines 370-381): rejected (no-op) when the
question list is empty (line 371), otherwise mode becomes `active`, the
index is reset to 0 and prior results are cleared. -/
def startGuidedInterview {α : Type} (st : GuidedState α) : GuidedState α :=
  if st.questions.length = 0 then st
  else { st with mode := .active, currentQuestionIndex := 0, sessionResults := [] }

/-- Embedding of `onGuidedStopRecording` (app.js lines 435-443): the stop-button click
handler; it stops the recorder and sets the mode to `analyzing`. -/
def onGuidedStopRecording {α : Type} (st : GuidedState α) : GuidedState α :=
  { st with mode := .analyzing }

/-- The guided `mediaRecorder.onstop` callback (app.js lines 410-426),
parameterised by the size of the captured blob.  With a non-empty blob it
invokes `uploadAndAnalyze` (the returned flag is `true`); with an empty blob
it sets the mode to `feedback` and shows the feedback without invoking
analyze (flag `false`).  Nothing is stored in `sessionResults` on either
path here. -/
def guidedRecorderStop {α : Type} (st : GuidedState α) (blobSize : Nat) :
    GuidedState α × Bool :=
  if blobSize > 0 then (st, true)
  else ({ st with mode := .feedback }, false)

/-- Embedding of `onGuidedAnalyzeResult` (app.js lines 445-451).  `uploadAndAnalyze`
calls it with the parsed response on success and with `null` on failure
(app.js line 191), modelled by `Option α`.  The mode always becomes
`feedback`; the result is stored at the current index only when the data
is truthy (`if (data)`, line 447). -/
def onGuidedAnalyzeResult {α : Type} (st : GuidedState α) (data : Option α) :
    GuidedState α :=
  { st with
    mode := .feedback
    sessionResults :=
      match data with
      | some d => setSlot st.sessionResults st.currentQuestionIndex d
      | none => st.sessionResults }

/-- The data rendered by `showGuidedFeedback` (app.js line 454): the slot of
`sessionResults` at the current index; `none` (a missing slot) renders the
"No feedback available" placeholder, i.e. empty feedback. -/
def displayedFeedback {α : Type} (st : GuidedState α) : Option α :=
  st.sessionResults.getD st.currentQuestionIndex none

/-- Embedding of `onTryAgain` (app.js lines 490-496): mode back to `active`, feedback
cleared, question index untouched. -/
def onTryAgain {α : Type} (st : GuidedState α) : GuidedState α :=
  { st with mode := .active }

/-- Effect of `showSessionSummary` on the state (app.js line 512). -/
def showSessionSummary {α : Type} (st : GuidedState α) : GuidedState α :=
  { st with mode := .complete }

/-- Embedding of `onNextQuestion` (app.js lines 498-509): increment the index; when the
new index is at least the number of questions, show the session summary
(terminal `complete` mode), otherwise return to `active` on the new
question. -/
def onNextQuestion {α : Type} (st : GuidedState α) : GuidedState α :=
  let st' := { st with currentQuestionIndex := st.currentQuestionIndex + 1 }
  if st'.currentQuestionIndex ≥ st.questions.length then showSessionSummary st'
  else { st' with mode := .active }

/-- The question displayed by `showCurrentQuestion` (app.js lines 383-387). -/
def currentQuestion {α : Type} (st : GuidedState α) : String :=
  st.questions.getD st.currentQuestionIndex ""

/-- The label `guidedState.questions[i] || 'Question ' + (i + 1)` (app.js line 518):
out-of-range and empty-string lookups fall back to a numbered label. -/
def questionLabel (qs : List String) (i : Nat) : String :=
  let q := qs.getD i ""
  if q = "" then "Question " ++ toString (i + 1) else q

/-- The entries of the session summary (app.js lines 515-522):
`sessionResults.filter(Boolean)` drops holes, and each surviving result
`r` at *filtered* position `i` is paired with `questions[i]` — the filtered
position, not the index the result was stored at. -/
def sessionSummaryEntries {α : Type} (st : GuidedState α) : List (String × α) :=
  ((st.sessionResults.filterMap id).enum).map
    (fun p => (questionLabel st.questions p.1, p.2))

/-- The events of one guided session, as delivered by the browser:
user clicks and asynchronous completions. -/
inductive GEvent (α : Type) where
  | startSession
  | stopClick
  | recorderStop (blobSize : Nat)
  | analyzeComplete (data : Option α)
  | tryAgain
  | nextQuestion
deriving DecidableEq

/-- Dispatch of one event to the corresponding handler of app.js. -/
def step {α : Type} (st : GuidedState α) : GEvent α → GuidedState α
  | .startSession => startGuidedInterview st
  | .stopClick => onGuidedStopRecording st
  | .recorderStop n => (guidedRecorderStop st n).1
  | .analyzeComplete d => onGuidedAnalyzeResult st d
  | .tryAgain => onTryAgain st
  | .nextQuestion => onNextQuestion st

/-- Folding a list of events over the controller state. -/
def run {α : Type} (st : GuidedState α) (es : List (GEvent α)) : GuidedState α :=
  es.foldl step st

/-- The outcome of the question-loading fetch, as observable by
`loadQuestions` (app.js lines 338-360).  `netError` covers a rejected
`fetch` or a body that fails to parse as JSON (both throw into the
`catch`).  `jsonBody qs` covers any response whose body parses as
JSON — the code never inspects `res.ok`, so this includes HTTP error
responses; `qs` is the `questions` field (`none` when absent or not
a list, as in an error body like `\x7b"detail": ...\x7d`). -/
inductive FetchOutcome where
  | netError
  | jsonBody (questions : Option (List String))
deriving DecidableEq

/-- Embedding of `loadQuestions` (app.js lines 338-360).  `jd` is the trimmed content of
the job-description box (`jobDescriptionEl?.value?.trim() || ''`, line 339)
and `outcome` the collaborator outcome.  Returns the new state and whether
an error was surfaced (`setStatus('Error: ...')`, line 358).  On any JSON
body the code runs `guidedState.questions = data.questions || []` and
`clearStatus()` — no `res.ok` check, no error surfaced. -/
def loadQuestions {α : Type} (st : GuidedState α) (jd : String)
    (outcome : FetchOutcome) : GuidedState α × Bool :=
  match outcome with
  | .netError => (st, true)
  | .jsonBody qs =>
    ({ st with questions := qs.getD [], jobDescription := jd }, false)

/-!
## UI-gated event semantics

For the temporal claim about stale `analyze` completions the plain handlers
are not enough: one must know which events the browser can actually deliver.
`UIState` carries, next to `guidedState`, the pieces of DOM state that gate
the guided-mode handlers, plus ghost bookkeeping (attempt ids) that lets the
theorems speak about which `analyze` call a completion belongs to.
-/

/-- The DOM state gating the guided-mode handlers, plus ghost attempt
bookkeeping:

* `setupVisible` — `guidedSetupEl.style.display` (shown by `setMode('guided')`
  app.js line 312, hidden by `startGuidedInterview` line 375);
* `feedbackButtonsVisible` — `btnTryAgain`/`btnNextQuestion`, always toggled
  together (shown at lines 485-486, hidden at lines 378-379, 493-494,
  506-507);
* `startAnswerEnabled` — `btnStartAnswer.disabled` negated (enabled by
  `showCurrentQuestion` lines 390-394, disabled at lines 430, 440, 487);
* `recordingActive` — whether a guided `MediaRecorder` is running;
* `pending` — ghost: `analyze` calls initiated (app.js line 415) whose
  completion callback has not fired yet, as `(attempt id, question index
  at initiation)`;
* `nextAttemptId`, `initLog` — ghost: serial numbering and ordered log of
  every initiated `analyze` call `(id, question index)`. -/
structure UIState (α : Type) where
  g : GuidedState α
  setupVisible : Bool
  feedbackButtonsVisible : Bool
  startAnswerEnabled : Bool
  recordingActive : Bool
  pending : List (Nat × Nat)
  nextAttemptId : Nat
  initLog : List (Nat × Nat)
deriving DecidableEq

/-- Browser events in guided mode.  `analyzeComplete id d` is the resolution
of the `uploadAndAnalyze` fetch of attempt `id` (app.js lines 183 and 191),
with `d = none` for the failure path. -/
inductive UIEvent (α : Type) where
  | modeGuided
  | startSession
  | startAnswer
  | stopAnswer (blobSize : Nat)
  | tryAgain
  | nextQuestion
  | analyzeComplete (id : Nat) (data : Option α)
deriving DecidableEq

/-- One gated step: `none` means the event cannot occur in that state
(its button is hidden or disabled, no recording is in progress, or no
such `analyze` call is outstanding).  Each branch mirrors the handler
wired in app.js lines 526-538 together with the DOM flags it flips. -/
def uiStep {α : Type} (ui : UIState α) : UIEvent α → Option (UIState α)
  | .modeGuided =>
    -- setMode('guided'), app.js lines 308-316: shows the setup panel and
    -- hides the active panel (with the feedback buttons in it); the
    -- guidedState object itself is untouched.
    some { ui with setupVisible := true, feedbackButtonsVisible := false }
  | .startSession =>
    -- btnStartGuided, enabled once a non-empty question list was rendered
    -- (app.js line 335) and clickable only while the setup panel is shown.
    if ui.setupVisible ∧ ui.g.questions ≠ [] then
      some { ui with
        g := startGuidedInterview ui.g
        setupVisible := false
        feedbackButtonsVisible := false
        startAnswerEnabled := true }
    else none
  | .startAnswer =>
    -- onGuidedStartRecording (app.js lines 398-433), gated by
    -- btnStartAnswer.disabled; disables itself (line 430) and starts
    -- the recorder.
    if ui.startAnswerEnabled then
      some { ui with startAnswerEnabled := false, recordingActive := true }
    else none
  | .stopAnswer blobSize =>
    -- onGuidedStopRecording (lines 435-443) — a no-op unless a recorder is
    -- active — followed by the recorder's onstop callback (lines 410-426):
    -- a non-empty blob initiates uploadAndAnalyze for the current question
    -- (ghost: a fresh attempt id is appended to pending/initLog); an empty
    -- blob goes straight to feedback.
    if ui.recordingActive then
      let stA := onGuidedStopRecording ui.g
      let r := guidedRecorderStop stA blobSize
      if r.2 then
        some { ui with
          g := r.1
          recordingActive := false
          pending := ui.pending ++ [(ui.nextAttemptId, ui.g.currentQuestionIndex)]
          initLog := ui.initLog ++ [(ui.nextAttemptId, ui.g.currentQuestionIndex)]
          nextAttemptId := ui.nextAttemptId + 1 }
      else
        some { ui with
          g := r.1
          recordingActive := false
          feedbackButtonsVisible := true
          startAnswerEnabled := false }
    else none
  | .tryAgain =>
    -- onTryAgain (lines 490-496), gated by button visibility; hides the
    -- feedback buttons and re-enables answering via showCurrentQuestion.
    if ui.feedbackButtonsVisible then
      some { ui with
        g := onTryAgain ui.g
        feedbackButtonsVisible := false
        startAnswerEnabled := true }
    else none
  | .nextQuestion =>
    -- onNextQuestion (lines 498-509), gated by button visibility; on the
    -- complete path the whole active panel is hidden (line 513).
    if ui.feedbackButtonsVisible then
      some { ui with
        g := onNextQuestion ui.g
        feedbackButtonsVisible := false
        startAnswerEnabled :=
          decide (ui.g.currentQuestionIndex + 1 < ui.g.questions.length) }
    else none
  | .analyzeComplete id d =>
    -- Resolution of a previously initiated fetch: possible exactly for
    -- attempts still pending; runs onGuidedAnalyzeResult, which via
    -- showGuidedFeedback shows the feedback buttons (lines 485-487).
    if (ui.pending.filter (fun p => p.1 = id)) ≠ [] then
      some { ui with
        g := onGuidedAnalyzeResult ui.g d
        pending := ui.pending.filter (fun p => p.1 ≠ id)
        feedbackButtonsVisible := true
        startAnswerEnabled := false }
    else none

/-- Folding gated events; `none` as soon as an impossible event occurs. -/
def uiRun {α : Type} (ui : UIState α) : List (UIEvent α) → Option (UIState α)
  | [] => some ui
  | e :: es =>
    match uiStep ui e with
    | none => none
    | some ui' => uiRun ui' es

/-!
## The rubric rendering model: `renderTurnScore` and `escapeHtml`

`renderTurnScore` (app.js lines 237-274) renders a loosely typed TurnScore
payload received from the scoring collaborator.  JavaScript values reaching
it are modelled by `JsAny`; a rubric-criterion object is `jobj met note`
(its `met` property may itself be any value — the collaborator's schema is
not trusted), absent properties are `undefined`.
-/

/-- A JavaScript value as consumed by the rendering helpers: `undefined`,
`null`, a boolean, a number, a string, or a criterion-shaped object with a
`met` property (any value) and a `note` string property (`""` for absent). -/
inductive JsAny where
  | undefined
  | jnull
  | jbool (b : Bool)
  | jnum (n : Int)
  | jstr (s : String)
  | jobj (met : JsAny) (note : String)
deriving DecidableEq

/-- JavaScript truthiness of a `JsAny`. -/
def truthy : JsAny → Bool
  | .undefined => false
  | .jnull => false
  | .jbool b => b
  | .jnum n => n ≠ 0
  | .jstr s => s ≠ ""
  | .jobj _ _ => true

/-- JavaScript loose `!= null`: false exactly for `null` and `undefined`. -/
def looseNeNull : JsAny → Bool
  | .undefined => false
  | .jnull => false
  | _ => true

/-- Property access `o.met`: the `met` field of a criterion object,
`undefined` on any non-object (access on `null`/`undefined` is guarded by
truthiness checks at every use site in the source). -/
def getMet : JsAny → JsAny
  | .jobj m _ => m
  | _ => .undefined

/-- The `met` helper (app.js line 238):
`(o) => (o && typeof o.met === 'boolean' ? o.met : null)` — the criterion's
`met` value when it is strictly a boolean, else `null`. -/
def met (o : JsAny) : JsAny :=
  match o with
  | .jobj (.jbool b) _ => .jbool b
  | _ => .jnull

/-- The `note` helper (app.js line 239):
`(o) => (o && o.note ? o.note : '')`. -/
def noteOf : JsAny → String
  | .jobj _ n => n
  | _ => ""

/-- The `badge` helper (app.js lines 240-243): a dash badge for strictly
`null`, a "Y" badge for any other truthy value, an "N" badge otherwise
(including `undefined`). -/
def badge (m : JsAny) : String :=
  if m = JsAny.jnull then "<span class=\"badge\">—</span>"
  else if truthy m then "<span class=\"badge yes\">Y</span>"
  else "<span class=\"badge no\">N</span>"

/-- The browser's text-node serialization that `escapeHtml` (app.js lines
276-281) performs via `div.textContent = s; div.innerHTML`: `&`, `<` and
`>` become entities, any other character is kept.  (The browser also
escapes non-breaking spaces; only the three metacharacters matter here.) -/
def escapeHtmlChar (c : Char) : String :=
  if c = '&' then "&amp;"
  else if c = '<' then "&lt;"
  else if c = '>' then "&gt;"
  else String.singleton c

/-- Character-wise escaping of a whole string. -/
def escapeChars : List Char → List Char
  | [] => []
  | c :: rest => (escapeHtmlChar c).data ++ escapeChars rest

/-- Embedding of `escapeHtml` (app.js lines 276-281).  `none` models a `null` or
`undefined` argument; `if (!s) return ''` also returns the empty string on
an empty input. -/
def escapeHtml (s : Option String) : String :=
  match s with
  | none => ""
  | some t => if t = "" then "" else ⟨escapeChars t.data⟩

/-- A loosely typed TurnScore payload as used by `renderTurnScore`:
criterion fields are arbitrary JavaScript values, counts are nullable
numbers, the free-text fields are strings (`""` for absent). -/
structure TurnScoreJS where
  text : String
  direct_answer_10s : JsAny
  specific_example : JsAny
  quantified_impact : JsAny
  tradeoffs : JsAny
  crisp_takeaway : JsAny
  filler_count : Option Int
  long_pauses : Option Int
  trailing_sentences : JsAny
  pace_wpm : Option Int
  pace_rating : String
  pace_feedback : String
  relevance_to_role : JsAny
  question_type : String
  actionable_feedback : String
deriving DecidableEq

/-- One of the five rubric items (app.js lines 245-256): badge of
`met(o)`, the label, and the note appended after `': '` when non-empty. -/
def critItem (label : String) (o : JsAny) : String :=
  "<div class=\"rubric-item\">" ++ badge (met o) ++ " " ++ label ++
    (if noteOf o = "" then "" else ": " ++ escapeHtml (some (noteOf o))) ++
    "</div>"

/-- The `${x ?? '—'}` interpolation of a nullable count (app.js lines
258-259). -/
def nullableNum : Option Int → String
  | none => "—"
  | some n => toString n

/-- The relevance-to-role item (app.js lines 265-267): rendered only when
the criterion object is truthy and its `met` is loosely non-null or its
note truthy; note the badge receives the raw `met` value, so an absent
(`undefined`) `met` with a non-empty note renders the "N" badge. -/
def relevanceItem (r : JsAny) : String :=
  if truthy r ∧ (looseNeNull (getMet r) ∨ noteOf r ≠ "") then
    "<div class=\"rubric-item\">Relevance to role: " ++ badge (getMet r) ++
      (if noteOf r = "" then "" else " " ++ escapeHtml (some (noteOf r))) ++
      "</div>"
  else ""

/-- The filler-count / long-pauses items (app.js lines 258-259):
`${t.x ?? '—'}` inside a rubric item. -/
def countItem (label : String) (v : Option Int) : String :=
  "<div class=\"rubric-item\">" ++ label ++ nullableNum v ++ "</div>"

/-- The pace item (app.js lines 261-264): rendered only when `pace_wpm` is
non-null; the rating label (underscores replaced by spaces, `'—'` when
falsy) is interpolated *without* `escapeHtml`, the pace feedback with it. -/
def paceItem (wpm : Option Int) (rating feedback : String) : String :=
  match wpm with
  | none => ""
  | some w =>
    "<div class=\"rubric-item\">Pace: " ++ toString w ++ " WPM (" ++
      (if rating = "" then "—" else rating.replace "_" " ") ++ ")" ++
      (if feedback = "" then "" else ": " ++ escapeHtml (some feedback)) ++
      "</div>"

/-- The question-type item (app.js line 268):
`escapeHtml(t.question_type || '—')`. -/
def questionTypeItem (qt : String) : String :=
  "<div class=\"rubric-item\">Question type: " ++
    escapeHtml (some (if qt = "" then "—" else qt)) ++ "</div>"

/-- The actionable-feedback item (app.js lines 269-271), rendered only for
a truthy value. -/
def actionItem (s : String) : String :=
  if s = "" then ""
  else "<div class=\"rubric-item\" style=\"margin-top:0.5rem\"><strong>Feedback:</strong> " ++
    escapeHtml (some s) ++ "</div>"

/-- Embedding of `renderTurnScore` (app.js lines 237-274), assembled chunk by chunk in
source order.  Note two raw spots: the badge at line 260 receives the whole
`t.trailing_sentences` value (not `met(...)`), and the pace rating label at
lines 262-263 is interpolated without `escapeHtml`. -/
def renderTurnScore (t : TurnScoreJS) : String :=
  "<div class=\"turn\"><div class=\"turn-text\">" ++ escapeHtml (some t.text) ++
    "</div>" ++
  "<div class=\"rubric\">" ++
  critItem "Direct answer (10s)" t.direct_answer_10s ++
  critItem "Specific example" t.specific_example ++
  critItem "Quantified impact" t.quantified_impact ++
  critItem "Tradeoffs" t.tradeoffs ++
  critItem "Crisp takeaway" t.crisp_takeaway ++
  countItem "Filler count: " t.filler_count ++
  countItem "Long pauses: " t.long_pauses ++
  "<div class=\"rubric-item\">Trailing/ramble: " ++ badge t.trailing_sentences ++
    "</div>" ++
  paceItem t.pace_wpm t.pace_rating t.pace_feedback ++
  relevanceItem t.relevance_to_role ++
  questionTypeItem t.question_type ++
  actionItem t.actionable_feedback ++
  "</div></div>"

/-- Reading back a just-set in-range slot: `(l.set i a).get? i = some a`. -/
theorem list_get?_set {β : Type} :
    ∀ (l : List β) (i : Nat) (a : β), i < l.length → (l.set i a).get? i = some a
  | [], i, _, h => absurd h (by simp)
  | _ :: _, 0, _, _ => rfl
  | _ :: bs, i + 1, a, h => by
    simpa using list_get?_set bs i a (by simpa using h)

/-!
## Claim C1
-/

/-- A reachable `analyzing`-mode state with no stored results: one question,
session started (`startGuidedInterview`), stop clicked, non-empty capture
handed to `uploadAndAnalyze`. -/
def c1State : GuidedState Nat :=
  run ⟨.setup, ["Q1"], 0, "", []⟩ [.startSession, .stopClick, .recorderStop 50]

/-- C1, counterexample.  The claim asserts that when the analyze call
completes with an internal failure (surfaced as an empty result,
`onSuccess(null)` at app.js line 191), the result is stored at the current
question index and the controller transitions to `Feedback` — store on the
failure path as well.  At the reachable state `c1State` (mode `analyzing`,
index 0, `sessionResults = []`), processing the failed completion does
transition to `feedback` but writes nothing: the results list stays empty,
so no slot exists at index 0 — the store half of the claim fails on the
failure path (`if (data)` at app.js line 447 guards the store). -/
theorem C1_counterexample :
    c1State.mode = GMode.analyzing ∧
    (onGuidedAnalyzeResult c1State none).mode = GMode.feedback ∧
    (onGuidedAnalyzeResult c1State none).sessionResults = [] ∧
    ¬ 0 < (onGuidedAnalyzeResult c1State none).sessionResults.length := by
  decide

/-- C1, amended: for every guided session in the `Analyzing` state, when the
analyze call completes the controller transitions to `Feedback` whether it
succeeded or failed, but the result is stored at the current question index
only on the success path; on the failure path (failure surfaced as a null
result) nothing is written and the stored results are left unchanged. -/
theorem C1_amended :
    ∀ (α : Type) (st : GuidedState α) (data : Option α),
      st.mode = GMode.analyzing →
      (onGuidedAnalyzeResult st data).mode = GMode.feedback ∧
      (∀ d : α, data = some d →
        (onGuidedAnalyzeResult st data).sessionResults =
          setSlot st.sessionResults st.currentQuestionIndex d) ∧
      (data = none →
        (onGuidedAnalyzeResult st data).sessionResults = st.sessionResults) := by
  intro α st data _
  refine ⟨rfl, ?_, ?_⟩
  · intro d h
    subst h
    rfl
  · intro h
    subst h
    rfl

/-- Witness for `C1_amended` at a concrete state and a successful
completion. -/
theorem C1_amended_witness :
    (⟨GMode.analyzing, ["Q1"], 0, "", []⟩ : GuidedState Nat).mode =
      GMode.analyzing ∧
    (onGuidedAnalyzeResult (⟨GMode.analyzing, ["Q1"], 0, "", []⟩ :
        GuidedState Nat) (some 5)).sessionResults = setSlot [] 0 5 ∧
    setSlot ([] : List (Option Nat)) 0 5 = [some 5] :=
  ⟨rfl,
   (C1_amended Nat ⟨GMode.analyzing, ["Q1"], 0, "", []⟩ (some 5) rfl).2.1 5 rfl,
   by decide⟩

/-!
## Claim C2
-/

/-- The spec's concrete scenario: three questions; answer question 1
(result 10), "next", answer question 2 (result 20), "try again" on
question 2, answer again (result 21), "next", answer question 3
(result 30), "next". -/
def c2State : GuidedState Nat :=
  run ⟨.setup, ["Q1", "Q2", "Q3"], 0, "", []⟩
    [.startSession, .stopClick, .recorderStop 100, .analyzeComplete (some 10),
     .nextQuestion, .stopClick, .recorderStop 80, .analyzeComplete (some 20),
     .tryAgain, .stopClick, .recorderStop 90, .analyzeComplete (some 21),
     .nextQuestion, .stopClick, .recorderStop 70, .analyzeComplete (some 30),
     .nextQuestion]

/-- C2: "try again" keeps `currentQuestionIndex` and returns to `active`;
a completion at an in-range index overwrites the stored slot without
changing the number of slots; and in the spec's size-3 scenario with one
completed retry on question 2, exactly 3 results are stored and the slot
of question 2 holds the post-retry result (21, not 20). -/
theorem C2_retry_overwrites :
    (∀ (α : Type) (st : GuidedState α),
      (onTryAgain st).currentQuestionIndex = st.currentQuestionIndex ∧
      (onTryAgain st).mode = GMode.active) ∧
    (∀ (α : Type) (st : GuidedState α) (d : α),
      st.currentQuestionIndex < st.sessionResults.length →
      (onGuidedAnalyzeResult st (some d)).sessionResults.length =
        st.sessionResults.length ∧
      (onGuidedAnalyzeResult st (some d)).sessionResults.get?
        st.currentQuestionIndex = some (some d)) ∧
    (c2State.sessionResults = [some 10, some 21, some 30] ∧
     c2State.mode = GMode.complete) := by
  refine ⟨fun α st => ⟨rfl, rfl⟩, ?_, by decide⟩
  intro α st d h
  constructor
  · simp [onGuidedAnalyzeResult, setSlot, h]
  · simp only [onGuidedAnalyzeResult, setSlot, if_pos h]
    exact list_get?_set st.sessionResults st.currentQuestionIndex (some d) h

/-- Witness for `C2_retry_overwrites` at a concrete state with an already
stored result at the current index. -/
theorem C2_witness :
    (⟨GMode.feedback, ["Q"], 0, "", [some 1]⟩ :
        GuidedState Nat).currentQuestionIndex <
      (⟨GMode.feedback, ["Q"], 0, "", [some 1]⟩ :
        GuidedState Nat).sessionResults.length ∧
    (onGuidedAnalyzeResult (⟨GMode.feedback, ["Q"], 0, "", [some 1]⟩ :
        GuidedState Nat) (some 9)).sessionResults.get? 0 = some (some 9) :=
  ⟨by decide,
   (C2_retry_overwrites.2.1 Nat ⟨GMode.feedback, ["Q"], 0, "", [some 1]⟩ 9
      (by decide)).2⟩

/-!
## Claim C3
-/

/-- C3: "next" advances the index by exactly one; when the new index is
past the question list the mode becomes `complete`, otherwise `active`
with the question at the new index displayed.  (Indices are 0-based, so
"the new index exceeds the QuestionSet length" means `new index ≥ length`:
index `length` is already past the last question, `length - 1`.) -/
theorem C3_next_question :
    ∀ (α : Type) (st : GuidedState α),
      (onNextQuestion st).currentQuestionIndex = st.currentQuestionIndex + 1 ∧
      (st.currentQuestionIndex + 1 ≥ st.questions.length →
        (onNextQuestion st).mode = GMode.complete) ∧
      (st.currentQuestionIndex + 1 < st.questions.length →
        (onNextQuestion st).mode = GMode.active ∧
        currentQuestion (onNextQuestion st) =
          st.questions.getD (st.currentQuestionIndex + 1) "") := by
  intro α st
  by_cases h : st.currentQuestionIndex + 1 ≥ st.questions.length
  · refine ⟨by simp [onNextQuestion, showSessionSummary, h], fun _ => ?_, fun hlt => ?_⟩
    · simp [onNextQuestion, showSessionSummary, h]
    · omega
  · refine ⟨by simp [onNextQuestion, h], fun hge => ?_, fun _ => ?_⟩
    · omega
    · exact ⟨by simp [onNextQuestion, h], by simp [onNextQuestion, currentQuestion, h]⟩

/-- Witness for `C3_next_question`, discharging both branches at concrete
states: from the last of one question to `complete`, and from the first of
two questions to `active` on the second question. -/
theorem C3_witness :
    ((0 : Nat) + 1 ≥ (["A"] : List String).length ∧
      (onNextQuestion (⟨GMode.feedback, ["A"], 0, "", []⟩ :
        GuidedState Nat)).mode = GMode.complete) ∧
    ((0 : Nat) + 1 < (["A", "B"] : List String).length ∧
      (onNextQuestion (⟨GMode.feedback, ["A", "B"], 0, "", []⟩ :
        GuidedState Nat)).mode = GMode.active) :=
  ⟨⟨by decide, (C3_next_question Nat ⟨GMode.feedback, ["A"], 0, "", []⟩).2.1
      (by decide)⟩,
   ⟨by decide, ((C3_next_question Nat ⟨GMode.feedback, ["A", "B"], 0, "", []⟩).2.2
      (by decide)).1⟩⟩

/-!
## Claim C4
-/

/-- A reachable completed session over two questions in which question A
(index 0) was never successfully analyzed (capture stopped with zero bytes)
and question B (index 1) got result 7: `sessionResults = [none, some 7]`. -/
def c4State : GuidedState Nat :=
  run ⟨.setup, ["Question A", "Question B"], 0, "", []⟩
    [.startSession, .stopClick, .recorderStop 0, .nextQuestion,
     .stopClick, .recorderStop 50, .analyzeComplete (some 7), .nextQuestion]

/-- C4, evaluated at the failing input.  The single stored result (7) was
stored at index 1, whose question is "Question B"; the claim requires the
summary to pair it with that index's question.  The code instead runs
`sessionResults.filter(Boolean)` and looks the question up at the
*filtered* position (`results.forEach((r, i) => ... questions[i] ...)`,
app.js lines 515-518), so the sole entry is paired with "Question A" —
the skipped index shifts every following label. -/
theorem C4_summary_mislabels :
    c4State.mode = GMode.complete ∧
    c4State.sessionResults = [none, some 7] ∧
    c4State.questions.getD 1 "" = "Question B" ∧
    sessionSummaryEntries c4State = [("Question A", 7)] := by
  decide

/-!
## Claim C5
-/

/-- A reachable state: question 1 was answered successfully (result 5
stored at index 0), then "try again" was taken, so the controller is
`active` on index 0 with the pre-retry result still stored. -/
def c5State : GuidedState Nat := ⟨.active, ["Q1"], 0, "", [some 5]⟩

/-- C5, counterexample.  The claim asserts that stopping capture with zero
bytes transitions directly to `Feedback` *with an empty result* — the
feedback shown reflecting an empty result.  At `c5State` (a retry of an
already-analyzed question), the zero-byte stop does reach `feedback`
without invoking analyze, but `showGuidedFeedback` re-renders the
previously stored result (5) from `sessionResults[0]` (app.js line 454):
the feedback shown is not empty. -/
theorem C5_counterexample :
    (guidedRecorderStop (onGuidedStopRecording c5State) 0).1.mode =
      GMode.feedback ∧
    (guidedRecorderStop (onGuidedStopRecording c5State) 0).2 = false ∧
    displayedFeedback (guidedRecorderStop (onGuidedStopRecording c5State) 0).1 =
      some 5 := by
  decide

/-- C5, amended: stopping capture with zero captured bytes transitions
directly to `Feedback` without invoking analyze and without storing or
discarding anything; the feedback rendered is whatever `sessionResults`
holds at the current index — the empty "no feedback" rendering exactly
when no result was ever stored there — and no retry is forced. -/
theorem C5_amended :
    ∀ (α : Type) (st : GuidedState α),
      (guidedRecorderStop (onGuidedStopRecording st) 0).1.mode =
        GMode.feedback ∧
      (guidedRecorderStop (onGuidedStopRecording st) 0).2 = false ∧
      (guidedRecorderStop (onGuidedStopRecording st) 0).1.sessionResults =
        st.sessionResults ∧
      (guidedRecorderStop (onGuidedStopRecording st) 0).1.currentQuestionIndex =
        st.currentQuestionIndex ∧
      (st.sessionResults.getD st.currentQuestionIndex none = none →
        displayedFeedback
          (guidedRecorderStop (onGuidedStopRecording st) 0).1 = none) := by
  intro α st
  exact ⟨rfl, rfl, rfl, rfl, fun h => h⟩

/-- Witness for `C5_amended` at a question with no stored result. -/
theorem C5_witness :
    ((⟨GMode.active, ["Q1"], 0, "", []⟩ :
        GuidedState Nat).sessionResults.getD 0 none = none) ∧
    displayedFeedback
      (guidedRecorderStop
        (onGuidedStopRecording (⟨GMode.active, ["Q1"], 0, "", []⟩ :
          GuidedState Nat)) 0).1 = none :=
  ⟨rfl, (C5_amended Nat ⟨GMode.active, ["Q1"], 0, "", []⟩).2.2.2.2 rfl⟩

/-!
## Claim C6
-/

/-- A state holding a previously loaded question set. -/
def c6State : GuidedState Nat := ⟨.setup, ["Old question"], 0, "", []⟩

/-- C6, evaluated at the failing input.  The claim requires that when the
adapt-questions collaborator fails — *including returning an error response
rather than a question list* — an error is surfaced and the existing
QuestionSet is left completely unchanged.  `loadQuestions` never checks
`res.ok` (contrast `uploadAndAnalyze`, app.js line 170): an HTTP error
response whose JSON body has no `questions` field makes
`guidedState.questions = data.questions || []` replace the existing set
with the empty list, and `clearStatus()` runs — no error is surfaced. -/
theorem C6_error_body_wipes_questions :
    c6State.questions = ["Old question"] ∧
    loadQuestions c6State "Some job" (.jsonBody none) =
      (⟨GMode.setup, [], 0, "Some job", []⟩, false) := by
  decide

/-!
## Claim C7
-/

/-- Initial UI state: guided setup visible, one loaded question, nothing
pending. -/
def c7Init : UIState Nat :=
  ⟨⟨.setup, ["Q1"], 0, "", []⟩, true, false, false, false, [], 0, []⟩

/-- A browser-deliverable event sequence: start a session, answer question
1 (attempt 0 initiated for index 0, fetch in flight), re-open the setup
panel via the always-clickable "Guided" mode button, start a *new* session
(no guard against the in-flight call), answer question 1 again (attempt 1
initiated for index 0), attempt 1 resolves with payload 11, then the stale
attempt 0 resolves with payload 10. -/
def c7Events : List (UIEvent Nat) :=
  [.startSession, .startAnswer, .stopAnswer 50,
   .modeGuided, .startSession, .startAnswer, .stopAnswer 60,
   .analyzeComplete 1 (some 11), .analyzeComplete 0 (some 10)]

/-- C7, counterexample.  The claim asserts that only the most recently
initiated analyze call's result may be written to a given index, stale
completions being detected and discarded.  The trace `c7Events` is
accepted by the gated semantics and ends with `sessionResults[0] = 10`:
the payload of attempt 0, although the init log shows attempt 1 was
initiated after it — also for index 0 — and resolved to 11.  The stale
result is stored, not discarded. -/
theorem C7_counterexample :
    (uiRun c7Init c7Events).map
      (fun fin => (fin.initLog, fin.g.sessionResults.getD 0 none)) =
      some ([(0, 0), (1, 0)], some 10) := by
  decide

/-- C7, amended: no staleness detection exists.  Whenever an analyze
completion with a non-null payload is processed — which the browser can
deliver for *any* still-pending attempt, however stale — the payload is
unconditionally stored at the then-current question index and the mode
becomes `feedback`; `onGuidedAnalyzeResult` never consults which attempt
the completion belongs to.  (Within an uninterrupted session the feedback
buttons stay hidden while a call is in flight, so a stale completion
cannot be produced via "try again" alone; restarting the session while a
call is in flight produces one, as the counterexample shows.) -/
theorem C7_amended :
    ∀ (α : Type) (ui : UIState α) (id : Nat) (d : α) (ui' : UIState α),
      uiStep ui (.analyzeComplete id (some d)) = some ui' →
      ui'.g.mode = GMode.feedback ∧
      ui'.g.sessionResults =
        setSlot ui.g.sessionResults ui.g.currentQuestionIndex d := by
  intro α ui id d ui' h
  simp only [uiStep] at h
  split at h
  · cases h
    exact ⟨rfl, rfl⟩
  · cases h

/-- A concrete state with attempt 3 pending, and the state `uiStep`
produces for its completion with payload 8. -/
def c7witIn : UIState Nat :=
  ⟨⟨.analyzing, ["Q"], 0, "", []⟩, false, false, false, false,
   [(3, 0)], 4, [(3, 0)]⟩

/-- The state after attempt 3 completes with payload 8 at `c7witIn`. -/
def c7witOut : UIState Nat :=
  ⟨⟨.feedback, ["Q"], 0, "", [some 8]⟩, false, true, false, false,
   [], 4, [(3, 0)]⟩

/-- Witness for `C7_amended` at the concrete pending completion. -/
theorem C7_witness :
    uiStep c7witIn (.analyzeComplete 3 (some 8)) = some c7witOut ∧
    c7witOut.g.mode = GMode.feedback ∧
    c7witOut.g.sessionResults =
      setSlot c7witIn.g.sessionResults c7witIn.g.currentQuestionIndex 8 :=
  ⟨by decide,
   (C7_amended Nat c7witIn 3 8 c7witOut (by decide)).1,
   (C7_amended Nat c7witIn 3 8 c7witOut (by decide)).2⟩

/-!
## Claim C8
-/

/-- A TurnScore payload in which the scoring collaborator omitted every
criterion: in particular `trailing_sentences` is absent (`undefined`). -/
def c8Score : TurnScoreJS :=
  ⟨"", .undefined, .undefined, .undefined, .undefined, .undefined, none, none, .undefined, none,
   "", "", .undefined, "", ""⟩

set_option maxRecDepth 4000 in
/-- C8, evaluated at the failing input.  The claim says a rubric criterion
whose `met` is absent, null or non-boolean renders the neutral dash badge,
never "N", and only `met === false` renders "N".  The five items routed
through the `met` helper do behave this way, but the trailing/ramble
criterion is rendered as `badge(t.trailing_sentences)` (app.js line 260) —
the raw value instead of `met(t.trailing_sentences)` used two lines above —
so an *absent* criterion (`undefined`, not strictly `null`, falsy) renders
the "N" badge, as the full rendering below shows; routing it through `met`
would give the dash badge (second conjunct).  Dually, a present criterion
object renders "Y" even when its `met` is strictly `false` (third
conjunct), because any object is truthy. -/
theorem C8_trailing_badge_coerced :
    renderTurnScore c8Score =
      "<div class=\"turn\"><div class=\"turn-text\"></div><div class=\"rubric\"><div class=\"rubric-item\"><span class=\"badge\">—</span> Direct answer (10s)</div><div class=\"rubric-item\"><span class=\"badge\">—</span> Specific example</div><div class=\"rubric-item\"><span class=\"badge\">—</span> Quantified impact</div><div class=\"rubric-item\"><span class=\"badge\">—</span> Tradeoffs</div><div class=\"rubric-item\"><span class=\"badge\">—</span> Crisp takeaway</div><div class=\"rubric-item\">Filler count: —</div><div class=\"rubric-item\">Long pauses: —</div><div class=\"rubric-item\">Trailing/ramble: <span class=\"badge no\">N</span></div><div class=\"rubric-item\">Question type: —</div></div></div>" ∧
    badge (met JsAny.undefined) = "<span class=\"badge\">—</span>" ∧
    badge (JsAny.jobj (JsAny.jbool false) "") = "<span class=\"badge yes\">Y</span>" := by
  exact ⟨rfl, rfl, rfl⟩

/-!
## Claim C10

The first part of the claim is about `escapeHtml` itself: empty output on
null/undefined/empty input, and metacharacters appearing in the output only
as entities.  The latter is stated through a strict decoder: the decoder
rejects any raw `<` or `>` and any `&` that does not begin one of the three
entities, so its success on `escapeHtml`'s output — returning exactly the
input — shows every metacharacter of the input survives as an entity and
nothing else.

The second part — every listed free-text field (turn text, criterion notes,
question type, actionable feedback) passes through `escapeHtml` before
interpolation — is captured by counting: the number of `<` characters of
the rendered markup equals `tagCount`, a function that never inspects the
content of those fields (only presence/emptiness, plus the raw-interpolated
non-free-text leftovers: the numeric counts, the pace number and the pace
rating category).  Free text therefore cannot open a tag in the rendered
markup, which is exactly what escaping before interpolation guarantees.
-/

/-- Strict decoder for the three entities produced by `escapeHtml`: raw
`<`, `>`, or a `&` that does not begin `&amp;`, `&lt;` or `&gt;`, is
rejected (`none`). -/
def unescapeChars : List Char → Option (List Char)
  | [] => some []
  | c :: rest =>
    if c = '&' then
      if rest.take 4 = ['a', 'm', 'p', ';'] then
        (unescapeChars (rest.drop 4)).map (fun l => '&' :: l)
      else if rest.take 3 = ['l', 't', ';'] then
        (unescapeChars (rest.drop 3)).map (fun l => '<' :: l)
      else if rest.take 3 = ['g', 't', ';'] then
        (unescapeChars (rest.drop 3)).map (fun l => '>' :: l)
      else none
    else if c = '<' then none
    else if c = '>' then none
    else (unescapeChars rest).map (fun l => c :: l)
termination_by l => l.length
decreasing_by
  all_goals simp
  all_goals omega

/-- Decoding one escaped character block peels off exactly that
character. -/
theorem unescape_block (c : Char) (l : List Char) :
    unescapeChars ((escapeHtmlChar c).data ++ l) =
      (unescapeChars l).map (fun m => c :: m) := by
  by_cases h1 : c = '&'
  · subst h1
    simp [escapeHtmlChar, unescapeChars, List.take_succ_cons, List.drop_succ_cons]
  · by_cases h2 : c = '<'
    · subst h2
      simp [escapeHtmlChar, unescapeChars, List.take_succ_cons, List.drop_succ_cons]
    · by_cases h3 : c = '>'
      · subst h3
        simp [escapeHtmlChar, unescapeChars, List.take_succ_cons, List.drop_succ_cons]
      · rw [show (escapeHtmlChar c).data = [c] by
          simp [escapeHtmlChar, h1, h2, h3, String.singleton]]
        simp [unescapeChars, h1, h2, h3]

/-- The strict decoder recovers any escaped character sequence. -/
theorem unescape_escapeChars : ∀ l : List Char,
    unescapeChars (escapeChars l) = some l := by
  intro l
  induction l with
  | nil => simp [escapeChars, unescapeChars]
  | cons c rest ih =>
    rw [escapeChars, unescape_block, ih]
    rfl

/-- No escaped character block contains a raw `<`. -/
theorem count_lt_escapeHtmlChar (c : Char) :
    ((escapeHtmlChar c).data).count '<' = 0 := by
  unfold escapeHtmlChar
  split_ifs with h1 h2 h3
  · decide
  · decide
  · decide
  · simp [String.singleton, List.count_cons, h2]

/-- Escaped character sequences contain no raw `<`. -/
theorem count_lt_escapeChars : ∀ l : List Char,
    (escapeChars l).count '<' = 0 := by
  intro l
  induction l with
  | nil => rfl
  | cons c rest ih =>
    rw [escapeChars, List.count_append, ih, count_lt_escapeHtmlChar]

/-- Output of `escapeHtml` contains no raw `<`. -/
theorem count_lt_escapeHtml (s : String) :
    ((escapeHtml (some s)).data).count '<' = 0 := by
  by_cases h : s = ""
  · subst h
    decide
  · simp only [escapeHtml, if_neg h]
    exact count_lt_escapeChars s.data

/-- Every badge is exactly one span: two `<`. -/
theorem count_lt_badge (m : JsAny) : ((badge m).data).count '<' = 2 := by
  unfold badge
  split_ifs <;> decide

/-- A rubric criterion item contributes exactly its fixed four tags,
whatever the criterion value and note. -/
theorem count_lt_critItem (label : String) (o : JsAny)
    (h : label.data.count '<' = 0) :
    ((critItem label o).data).count '<' = 4 := by
  unfold critItem
  split_ifs with hn
  · simp [String.data_append, List.count_append, h, count_lt_badge]
  · simp [String.data_append, List.count_append, h, count_lt_badge,
      count_lt_escapeHtml]

/-- A count item contributes its two tags plus whatever the raw numeric
interpolation contributes. -/
theorem count_lt_countItem (label : String) (v : Option Int)
    (h : label.data.count '<' = 0) :
    ((countItem label v).data).count '<' =
      2 + ((nullableNum v).data).count '<' := by
  have k1 : (("<div class=\"rubric-item\">" : String).data).count '<' = 1 := by
    decide
  have k2 : (("</div>" : String).data).count '<' = 1 := by decide
  unfold countItem
  simp only [String.data_append, List.count_append, h, k1, k2]
  omega

/-- The pace item contributes its two tags plus the raw interpolations of
the pace number and the (unescaped) rating label; the escaped pace
feedback contributes nothing. -/
theorem count_lt_paceItem (wpm : Option Int) (rating feedback : String) :
    ((paceItem wpm rating feedback).data).count '<' =
      (match wpm with
       | none => 0
       | some w =>
         2 + ((toString w).data).count '<' +
           (if rating = "" then 0
            else ((rating.replace "_" " ").data).count '<')) := by
  rcases wpm with _ | w
  · rfl
  · have k1 : (("<div class=\"rubric-item\">Pace: " : String).data).count '<' = 1 := by
      decide
    have k2 : ((" WPM (" : String).data).count '<' = 0 := by decide
    have k3 : (((")") : String).data).count '<' = 0 := by decide
    have k4 : (((": ") : String).data).count '<' = 0 := by decide
    have k5 : (("—" : String).data).count '<' = 0 := by decide
    have k6 : (("</div>" : String).data).count '<' = 1 := by decide
    unfold paceItem
    split_ifs with h1 h2 h3 <;>
      simp only [String.data_append, List.count_append, List.count_nil, k1, k2,
        k3, k4, k5, k6, count_lt_escapeHtml] <;>
      omega

/-- The relevance item contributes its four fixed tags when rendered. -/
theorem count_lt_relevanceItem (r : JsAny) :
    ((relevanceItem r).data).count '<' =
      if truthy r ∧ (looseNeNull (getMet r) ∨ noteOf r ≠ "") then 4 else 0 := by
  have k1 : (("<div class=\"rubric-item\">Relevance to role: " : String).data).count '<' = 1 := by
    decide
  have k2 : ((" " : String).data).count '<' = 0 := by decide
  have k3 : (("</div>" : String).data).count '<' = 1 := by decide
  unfold relevanceItem
  split_ifs with h1 h2
  · simp only [String.data_append, List.count_append, List.count_nil, k1, k2,
      k3, count_lt_badge]
  · simp only [String.data_append, List.count_append, List.count_nil, k1, k2,
      k3, count_lt_badge, count_lt_escapeHtml]
  · rfl

/-- The question-type item always contributes exactly its two tags: the
escaped field content contributes nothing. -/
theorem count_lt_questionTypeItem (qt : String) :
    ((questionTypeItem qt).data).count '<' = 2 := by
  have k1 : (("<div class=\"rubric-item\">Question type: " : String).data).count '<' = 1 := by
    decide
  have k2 : (("</div>" : String).data).count '<' = 1 := by decide
  unfold questionTypeItem
  simp only [String.data_append, List.count_append, k1, k2, count_lt_escapeHtml]

/-- The actionable-feedback item contributes exactly its four fixed tags
when rendered: the escaped field content contributes nothing. -/
theorem count_lt_actionItem (s : String) :
    ((actionItem s).data).count '<' = if s = "" then 0 else 4 := by
  unfold actionItem
  split_ifs with h
  · rfl
  · have k1 : (("<div class=\"rubric-item\" style=\"margin-top:0.5rem\"><strong>Feedback:</strong> " : String).data).count '<' = 3 := by
      decide
    have k2 : (("</div>" : String).data).count '<' = 1 := by decide
    simp only [String.data_append, List.count_append, k1, k2,
      count_lt_escapeHtml]

/-- The number of `<` in `renderTurnScore t`: the 24 fixed tags of the
always-present markup (turn/turn-text/rubric wrappers, five criterion
items with their badges), the count/trailing/question-type items, the
optional pace, relevance and feedback items — plus whatever the *raw*
(unescaped) interpolations contribute: the two nullable counts, the pace
number and the pace rating label.  The content of the escaped free-text
fields (turn text, criterion notes, pace feedback, question type,
actionable feedback) never appears: only emptiness/presence of some of
them selects which fixed markup is emitted. -/
def tagCount (t : TurnScoreJS) : Nat :=
  24 +
  (2 + ((nullableNum t.filler_count).data).count '<') +
  (2 + ((nullableNum t.long_pauses).data).count '<') +
  4 +
  (match t.pace_wpm with
   | none => 0
   | some w =>
     2 + ((toString w).data).count '<' +
       (if t.pace_rating = "" then 0
        else ((t.pace_rating.replace "_" " ").data).count '<')) +
  (if truthy t.relevance_to_role ∧
      (looseNeNull (getMet t.relevance_to_role) ∨
        noteOf t.relevance_to_role ≠ "") then 4 else 0) +
  2 +
  (if t.actionable_feedback = "" then 0 else 4) +
  2

set_option maxHeartbeats 1000000 in
/-- The rendered markup's `<` count is exactly `tagCount`: free text can
never open a tag. -/
theorem count_lt_renderTurnScore (t : TurnScoreJS) :
    ((renderTurnScore t).data).count '<' = tagCount t := by
  have c1 : ∀ o : JsAny,
      ((critItem "Direct answer (10s)" o).data).count '<' = 4 :=
    fun o => count_lt_critItem _ o (by decide)
  have c2 : ∀ o : JsAny, ((critItem "Specific example" o).data).count '<' = 4 :=
    fun o => count_lt_critItem _ o (by decide)
  have c3 : ∀ o : JsAny, ((critItem "Quantified impact" o).data).count '<' = 4 :=
    fun o => count_lt_critItem _ o (by decide)
  have c4 : ∀ o : JsAny, ((critItem "Tradeoffs" o).data).count '<' = 4 :=
    fun o => count_lt_critItem _ o (by decide)
  have c5 : ∀ o : JsAny, ((critItem "Crisp takeaway" o).data).count '<' = 4 :=
    fun o => count_lt_critItem _ o (by decide)
  have f1 : ((countItem "Filler count: " t.filler_count).data).count '<' =
      2 + ((nullableNum t.filler_count).data).count '<' :=
    count_lt_countItem _ _ (by decide)
  have f2 : ((countItem "Long pauses: " t.long_pauses).data).count '<' =
      2 + ((nullableNum t.long_pauses).data).count '<' :=
    count_lt_countItem _ _ (by decide)
  have k1 : (("<div class=\"turn\"><div class=\"turn-text\">" : String).data).count '<' = 2 := by
    decide
  have k2 : (("</div>" : String).data).count '<' = 1 := by decide
  have k3 : (("<div class=\"rubric\">" : String).data).count '<' = 1 := by decide
  have k6 : (("<div class=\"rubric-item\">Trailing/ramble: " : String).data).count '<' = 1 := by
    decide
  have k13 : (("</div></div>" : String).data).count '<' = 2 := by decide
  unfold renderTurnScore tagCount
  simp only [String.data_append, List.count_append, c1, c2, c3, c4, c5, f1, f2,
    k1, k2, k3, k6, k13, count_lt_badge, count_lt_escapeHtml,
    count_lt_paceItem, count_lt_relevanceItem, count_lt_questionTypeItem,
    count_lt_actionItem]

/-- C10: `escapeHtml` maps null/undefined and the empty string to the
empty string; on any input its output decodes — under the strict decoder
that rejects every raw metacharacter — back to exactly the input, so the
input's `&`, `<`, `>` appear in the output only as the entities `&amp;`,
`&lt;`, `&gt;`; and the free-text fields rendered by `renderTurnScore`
(turn text, criterion notes, question type, actionable feedback — all
interpolated via `escapeHtml` in the definition above) cannot change the
tag structure of the produced markup: its `<` count is exactly the fixed
`tagCount`, which is independent of those fields' content. -/
theorem C10_escapeHtml_renders_safely :
    (escapeHtml none = "" ∧ escapeHtml (some "") = "") ∧
    (∀ s : String, unescapeChars ((escapeHtml (some s)).data) = some s.data) ∧
    (∀ t : TurnScoreJS, ((renderTurnScore t).data).count '<' = tagCount t) := by
  refine ⟨⟨rfl, rfl⟩, ?_, count_lt_renderTurnScore⟩
  intro s
  by_cases h : s = ""
  · subst h
    simp [escapeHtml, unescapeChars]
  · simp only [escapeHtml, if_neg h]
    exact unescape_escapeChars s.data

/-!
## Claim C9
-/

/-- C9: starting a guided session with an empty QuestionSet is a no-op
(the state — in particular a `setup` mode — is left untouched), and with a
non-empty QuestionSet it transitions to `active` with the index reset to 0
and all prior stored results cleared. -/
theorem C9_start_guard :
    ∀ (α : Type) (st : GuidedState α),
      (st.questions = [] → startGuidedInterview st = st) ∧
      (st.questions ≠ [] →
        startGuidedInterview st =
          { st with mode := GMode.active, currentQuestionIndex := 0,
                    sessionResults := [] }) := by
  intro α st
  constructor
  · intro h
    simp [startGuidedInterview, h]
  · intro h
    rw [startGuidedInterview, if_neg]
    simpa [List.length_eq_zero] using h

/-- Witness for `C9_start_guard`, discharging both branches at concrete
states: a stale session with one question and a prior result starts fresh;
an empty question list leaves the setup state untouched. -/
theorem C9_witness :
    ((⟨GMode.setup, ["Q"], 2, "", [some 3]⟩ :
        GuidedState Nat).questions ≠ [] ∧
      startGuidedInterview (⟨GMode.setup, ["Q"], 2, "", [some 3]⟩ :
        GuidedState Nat) = ⟨GMode.active, ["Q"], 0, "", []⟩) ∧
    ((⟨GMode.setup, [], 0, "", []⟩ : GuidedState Nat).questions = [] ∧
      startGuidedInterview (⟨GMode.setup, [], 0, "", []⟩ :
        GuidedState Nat) = ⟨GMode.setup, [], 0, "", []⟩) :=
  ⟨⟨by decide,
    by rw [(C9_start_guard Nat ⟨GMode.setup, ["Q"], 2, "", [some 3]⟩).2
        (by decide)]⟩,
   ⟨rfl, (C9_start_guard Nat ⟨GMode.setup, [], 0, "", []⟩).1 rfl⟩⟩

end InterviewCoach
